import Mathlib

/-
Verification development for the spa-courses-administration single-page
application. The definitions below are a shallow embedding of the
client-side router (src/router.js), the session service (src/auth.js),
the auth controller (handleLogin) and the course controller
(courseController.js). Network effects are modelled by explicit
environment parameters, browser history pushes by an accumulated list
of pushed paths, and the mock json-server store by an explicit list of
stored records.
-/

namespace Spa

/-- Session record persisted in localStorage under the key loggedInUser:
the object written by saveUserInfo, holding id, email and role. -/
structure Session where
  id : Nat
  email : String
  role : String
deriving DecidableEq, Repr

/-- Tag for the per-view initializer chosen by handleLocation
(initializeLoginForm, initializeRegisterForm, initializeTasksView,
initializeStudentDashboard). -/
inductive Initializer where
  | loginForm
  | registerForm
  | tasksView
  | studentDashboard
deriving DecidableEq, Repr

/-- The routes object of router.js: maps URL paths to HTML view files.
A key absent from the object yields undefined, modelled as none. -/
def routes (path : String) : Option String :=
  if path = "/" then some "src/views/home.html"
  else if path = "/login" then some "src/views/login.html"
  else if path = "/register" then some "src/views/register.html"
  else if path = "/tasks" then some "src/views/task.html"
  else if path = "/student-dashboard" then some "src/views/student-dashboard.html"
  else if path = "/404" then some "src/views/404.html"
  else none

/-- Result of one invocation of the body of handleLocation before any
view is loaded: either a call to navigateTo (push path, re-dispatch) or
a resolution to a view path (possibly the undefined variable, none) and
an optional initializer. -/
inductive StepResult where
  | redirect (path : String)
  | render (viewPath : Option String) (viewInitializer : Option Initializer)
deriving DecidableEq, Repr

/-- One pass of handleLocation in router.js: the two authentication
guards followed by the switch on the path. The session argument is the
current localStorage state (isAuthenticated is session not none,
getCurrentUser is the session value). In the /tasks case with an
authenticated user whose role is neither administrator nor student the
switch assigns no view, leaving viewPath undefined (none). -/
def resolveStep (session : Option Session) (path : String) : StepResult :=
  if session = none ∧ (path = "/tasks" ∨ path = "/student-dashboard") then
    StepResult.redirect "/login"
  else if session ≠ none ∧ (path = "/login" ∨ path = "/register") then
    StepResult.redirect "/tasks"
  else if path = "/" ∨ path = "/home" then
    StepResult.render (routes "/") none
  else if path = "/login" then
    StepResult.render (routes "/login") (some Initializer.loginForm)
  else if path = "/register" then
    StepResult.render (routes "/register") (some Initializer.registerForm)
  else if path = "/tasks" then
    match session with
    | some u =>
      if u.role = "administrator" then
        StepResult.render (routes "/tasks") (some Initializer.tasksView)
      else if u.role = "student" then
        StepResult.redirect "/student-dashboard"
      else
        StepResult.render none none
    | none => StepResult.render none none
  else if path = "/student-dashboard" then
    match session with
    | some u =>
      if u.role = "student" then
        StepResult.render (routes "/student-dashboard") (some Initializer.studentDashboard)
      else
        StepResult.redirect "/tasks"
    | none => StepResult.redirect "/login"
  else
    StepResult.render (routes "/404") none

/-- Final outcome of a dispatch: the view path handed to loadView and
the initializer that will run after injection. -/
structure RenderOutcome where
  viewPath : Option String
  viewInitializer : Option Initializer
deriving DecidableEq, Repr

/-- Full dispatch of handleLocation, following redirects. navigateTo
pushes the new path into browser history and re-invokes handleLocation,
so each redirect contributes one pushed path and one recursive
dispatch. The first component collects the pushed paths in order; the
second is the final render outcome (none only if the fuel bound is
exhausted, which never happens for the route table of this program with
fuel at least 3). -/
def handleLocation : Nat → Option Session → String → List String × Option RenderOutcome
  | 0, _, _ => ([], none)
  | Nat.succ fuel, session, path =>
    match resolveStep session path with
    | StepResult.redirect p =>
      ((handleLocation fuel session p).1.cons p, (handleLocation fuel session p).2)
    | StepResult.render v i => ([], some ⟨v, i⟩)

/-- C1: with no session stored, dispatching /tasks or /student-dashboard
pushes /login into history, re-dispatches, and finally renders the login
view with the login-form initializer — never the protected view. -/
theorem unauthenticated_protected_path_renders_login (fuel : Nat) (path : String)
    (h : path = "/tasks" ∨ path = "/student-dashboard") :
    handleLocation (fuel + 3) none path =
      (["/login"], some ⟨some "src/views/login.html", some Initializer.loginForm⟩) := by
  rcases h with rfl | rfl <;>
    simp [handleLocation, resolveStep, routes]

/-- Witness for C1 at the concrete protected path /tasks with fuel 0. -/
theorem unauthenticated_protected_path_renders_login_witness :
    handleLocation 3 none "/tasks" =
      (["/login"], some ⟨some "src/views/login.html", some Initializer.loginForm⟩) :=
  unauthenticated_protected_path_renders_login 0 "/tasks" (Or.inl rfl)

/-- C4: with a session present, dispatching /tasks renders the
management (task) view for an administrator and redirects a student to
/student-dashboard, where the student dashboard is rendered; a session
whose role is not student reaching /student-dashboard is redirected to
/tasks (its first history push is /tasks). -/
theorem tasks_dispatch_by_role (fuel : Nat) (u : Session) :
    (u.role = "administrator" →
      handleLocation (fuel + 3) (some u) "/tasks" =
        ([], some ⟨some "src/views/task.html", some Initializer.tasksView⟩)) ∧
    (u.role = "student" →
      handleLocation (fuel + 3) (some u) "/tasks" =
        (["/student-dashboard"],
          some ⟨some "src/views/student-dashboard.html", some Initializer.studentDashboard⟩)) ∧
    (u.role ≠ "student" →
      ((handleLocation (fuel + 3) (some u) "/student-dashboard").1).head? = some "/tasks") := by
  obtain ⟨i, e, r⟩ := u
  refine ⟨fun h => ?_, fun h => ?_, fun h => ?_⟩
  · simp only at h
    subst h
    simp [handleLocation, resolveStep, routes]
  · simp only at h
    subst h
    simp [handleLocation, resolveStep, routes]
  · simp only at h
    simp [handleLocation, resolveStep, routes, h]

/-- Witness for C4 at concrete administrator and student sessions. -/
theorem tasks_dispatch_by_role_witness :
    handleLocation 3 (some ⟨1, "a@academy.com", "administrator"⟩) "/tasks" =
      ([], some ⟨some "src/views/task.html", some Initializer.tasksView⟩) ∧
    handleLocation 3 (some ⟨2, "s@academy.com", "student"⟩) "/tasks" =
      (["/student-dashboard"],
        some ⟨some "src/views/student-dashboard.html", some Initializer.studentDashboard⟩) ∧
    ((handleLocation 3 (some ⟨1, "a@academy.com", "administrator"⟩) "/student-dashboard").1).head? =
      some "/tasks" :=
  ⟨(tasks_dispatch_by_role 0 ⟨1, "a@academy.com", "administrator"⟩).1 rfl,
   (tasks_dispatch_by_role 0 ⟨2, "s@academy.com", "student"⟩).2.1 rfl,
   (tasks_dispatch_by_role 0 ⟨1, "a@academy.com", "administrator"⟩).2.2 (by decide)⟩

/-- C5: with a session present, dispatching /login or /register first
pushes /tasks (the redirect away from guest-only routes), and whatever
view is finally rendered is never the login or register fragment. -/
theorem authenticated_guest_path_redirects (fuel : Nat) (u : Session) (path : String)
    (h : path = "/login" ∨ path = "/register") :
    ((handleLocation (fuel + 3) (some u) path).1).head? = some "/tasks" ∧
    (∀ o, (handleLocation (fuel + 3) (some u) path).2 = some o →
      o.viewPath ≠ some "src/views/login.html" ∧
      o.viewPath ≠ some "src/views/register.html") := by
  obtain ⟨i, e, r⟩ := u
  by_cases hadm : r = "administrator"
  · subst hadm
    rcases h with rfl | rfl <;>
      constructor <;>
        simp [handleLocation, resolveStep, routes]
  · by_cases hstu : r = "student"
    · subst hstu
      rcases h with rfl | rfl <;>
        constructor <;>
          simp [handleLocation, resolveStep, routes]
    · rcases h with rfl | rfl <;>
        constructor <;>
          simp [handleLocation, resolveStep, routes, hadm, hstu]

/-- Witness for C5 at a concrete student session on /login. -/
theorem authenticated_guest_path_redirects_witness :
    ((handleLocation 3 (some ⟨2, "s@academy.com", "student"⟩) "/login").1).head? =
      some "/tasks" ∧
    (∀ o, (handleLocation 3 (some ⟨2, "s@academy.com", "student"⟩) "/login").2 = some o →
      o.viewPath ≠ some "src/views/login.html" ∧
      o.viewPath ≠ some "src/views/register.html") :=
  authenticated_guest_path_redirects 0 ⟨2, "s@academy.com", "student"⟩ "/login" (Or.inl rfl)

/-- Fields of a course as produced by the Course class constructor in
models/course.js and as stored by the data store: title, description
and category are copied verbatim, capacity and instructorId pass
through parseInt (none models the NaN result), and enrolledStudents is
the ordered list of enrolled user ids. -/
structure CourseData where
  title : String
  description : String
  category : String
  capacity : Option Nat
  instructorId : Option Nat
  enrolledStudents : List Nat
deriving DecidableEq, Repr

/-- Longest leading run of decimal digits of a character list. -/
def digitsTaken : List Char → List Char
  | [] => []
  | c :: cs => if c.isDigit then c :: digitsTaken cs else []

/-- Model of the JavaScript parseInt builtin with radix 10, restricted
to the nonnegative inputs the course form produces: the longest leading
digit run is read as a number, and none models the NaN returned when no
leading digit exists. -/
def parseIntJS (s : String) : Option Nat :=
  match digitsTaken s.data with
  | [] => none
  | ds => some (ds.foldl (fun acc c => acc * 10 + (c.toNat - 48)) 0)

/-- The Course class constructor of models/course.js applied to the
admin-form field values: copies title, description and category,
parses capacity and instructorId with parseInt, and starts with an
empty enrolledStudents list. -/
def Course.make (title description category capacity instructorId : String) : CourseData :=
  { title := title
    description := description
    category := category
    capacity := parseIntJS capacity
    instructorId := parseIntJS instructorId
    enrolledStudents := [] }

/-- A course record held by the json-server store: the stored fields
together with the server-assigned id. -/
structure StoredCourse where
  id : Nat
  data : CourseData
deriving DecidableEq, Repr

/-- Modelled from the spec: the data store collaborator is a REST store
(json-server) whose POST to the courses endpoint appends the new record
with a fresh server-assigned id and echoes the created entity. The
client-side createCourse of courseController.js returns that entity, or
null (none) when the request fails, in which case the store is
unchanged. -/
def createCourse (serverOk : Bool) (store : List StoredCourse) (freshId : Nat)
    (c : CourseData) : List StoredCourse × Option StoredCourse :=
  if serverOk then (store ++ [⟨freshId, c⟩], some ⟨freshId, c⟩)
  else (store, none)

/-- Modelled from the spec: a GET of the courses endpoint returns every
stored record. The client-side getAllCourses of courseController.js
returns that list, or an empty list when the fetch fails. -/
def getAllCourses (serverOk : Bool) (store : List StoredCourse) : List StoredCourse :=
  if serverOk then store else []

/-- Modelled from the spec: the store handles a PATCH of a course as a
partial replace, substituting the transmitted enrolledStudents list for
the stored one and leaving every other field unchanged. -/
def patchEnrolledStudents (c : CourseData) (l : List Nat) : CourseData :=
  { c with enrolledStudents := l }

/-- The list computed by handleEnrollClick in router.js: the spread of
the current enrolledStudents followed by the current user id. -/
def handleEnrollUpdate (enrolledStudents : List Nat) (uid : Nat) : List Nat :=
  enrolledStudents ++ [uid]

/-- Core of handleEnrollClick in router.js: look up the clicked course
in the freshly fetched course list by id, and when found compute the
new student list by appending the current user id (the PATCH then
replaces the stored list with it). none models the branch where the
course or the user is missing and no request is sent. -/
def handleEnrollClick (courses : List StoredCourse) (courseId : Nat) (uid : Nat) :
    Option (List Nat) :=
  match courses.find? (fun c => c.id == courseId) with
  | some course => some (handleEnrollUpdate course.data.enrolledStudents uid)
  | none => none

/-- C2: when the clicked course is found and the current user id is
absent from its enrolledStudents (the state in which the enroll button
is enabled), the list computed by the enroll handler and accepted by
the store contains the user id exactly once. -/
theorem enroll_adds_user_exactly_once (courses : List StoredCourse) (courseId uid : Nat)
    (course : StoredCourse)
    (hfind : courses.find? (fun c => c.id == courseId) = some course)
    (habs : uid ∉ course.data.enrolledStudents) :
    ∃ newList, handleEnrollClick courses courseId uid = some newList ∧
      ((patchEnrolledStudents course.data newList).enrolledStudents).count uid = 1 := by
  refine ⟨handleEnrollUpdate course.data.enrolledStudents uid, ?_, ?_⟩
  · simp [handleEnrollClick, hfind]
  · simp [patchEnrolledStudents, handleEnrollUpdate,
      List.count_eq_zero_of_not_mem habs]

/-- Witness for C2 on a one-course store with user 7 not yet enrolled. -/
theorem enroll_adds_user_exactly_once_witness :
    ∃ newList,
      handleEnrollClick
        [⟨1, ⟨"T", "D", "C", some 10, some 3, [4, 5]⟩⟩] 1 7 = some newList ∧
      ((patchEnrolledStudents ⟨"T", "D", "C", some 10, some 3, [4, 5]⟩ newList).enrolledStudents).count 7 = 1 :=
  enroll_adds_user_exactly_once
    [⟨1, ⟨"T", "D", "C", some 10, some 3, [4, 5]⟩⟩] 1 7
    ⟨1, ⟨"T", "D", "C", some 10, some 3, [4, 5]⟩⟩ (by decide) (by decide)

/-- The list computed by handleUnenrollClick in router.js: the filter
keeping every student id strictly unequal to the current user id. -/
def handleUnenrollUpdate (enrolledStudents : List Nat) (uid : Nat) : List Nat :=
  enrolledStudents.filter (fun studentId => studentId != uid)

/-- Core of handleUnenrollClick in router.js: look up the clicked
course in the freshly fetched course list by id, and when found compute
the new student list by filtering out the current user id (the PATCH
then replaces the stored list with it). -/
def handleUnenrollClick (courses : List StoredCourse) (courseId : Nat) (uid : Nat) :
    Option (List Nat) :=
  match courses.find? (fun c => c.id == courseId) with
  | some course => some (handleUnenrollUpdate course.data.enrolledStudents uid)
  | none => none

/-- Counterexample to C3: on a course whose enrolledStudents holds the
current user id twice, the unenroll handler computes the empty list,
removing both occurrences, while the claim as stated demands that
exactly one occurrence be removed (leaving a count of one). -/
theorem unenroll_can_remove_more_than_one :
    handleUnenrollClick [⟨1, ⟨"T", "D", "C", some 10, some 3, [5, 5]⟩⟩] 1 5 = some [] ∧
    ¬ (([] : List Nat).count 5 = ([5, 5] : List Nat).count 5 - 1) := by
  constructor
  · rfl
  · decide

/-- Filtering out an element that occurs exactly once agrees with
erasing it: the single occurrence is dropped and every other element is
kept in order. -/
theorem filter_bne_eq_erase_of_count_one (uid : Nat) :
    ∀ l : List Nat, l.count uid = 1 → l.filter (fun x => x != uid) = l.erase uid := by
  intro l
  induction l with
  | nil => intro h; simp at h
  | cons b t ih =>
    intro h
    by_cases hb : b = uid
    · subst hb
      have ht : t.count b = 0 := by
        have := h
        rw [List.count_cons_self] at this
        omega
      have hnot : b ∉ t := List.count_eq_zero.mp ht
      have hfil : t.filter (fun x => x != b) = t := by
        rw [List.filter_eq_self]
        intro a ha
        simp only [bne_iff_ne, ne_eq]
        intro hab
        exact hnot (hab ▸ ha)
      simp [List.filter_cons, hfil]
    · have hcount : t.count uid = 1 := by
        rw [List.count_cons_of_ne (fun habs => hb habs.symm)] at h
        exact h
      have herase : (b :: t).erase uid = b :: t.erase uid := by
        rw [List.erase_cons_tail]
        simp [hb]
      rw [herase, List.filter_cons]
      simp only [bne_iff_ne, ne_eq, hb, not_false_eq_true, decide_True, if_true]
      rw [ih hcount]

/-- C3 as amended: when the clicked course is found and the current
user id occurs exactly once in its enrolledStudents, the unenroll
handler computes and the store accepts a list equal to erasing that one
occurrence — the count of the user id drops by one to zero and every
other element keeps its multiplicity (and, being an erase, its relative
order). In general the handler filter removes every occurrence of the
user id, so with duplicate occurrences more than one is removed. -/
theorem unenroll_removes_single_occurrence (courses : List StoredCourse) (courseId uid : Nat)
    (course : StoredCourse)
    (hfind : courses.find? (fun c => c.id == courseId) = some course)
    (honce : course.data.enrolledStudents.count uid = 1) :
    ∃ newList, handleUnenrollClick courses courseId uid = some newList ∧
      newList = course.data.enrolledStudents.erase uid ∧
      newList.count uid = course.data.enrolledStudents.count uid - 1 ∧
      ∀ x, x ≠ uid → newList.count x = course.data.enrolledStudents.count x := by
  refine ⟨handleUnenrollUpdate course.data.enrolledStudents uid, ?_, ?_, ?_, ?_⟩
  · simp [handleUnenrollClick, hfind]
  · exact filter_bne_eq_erase_of_count_one uid _ honce
  · rw [handleUnenrollUpdate, filter_bne_eq_erase_of_count_one uid _ honce]
    simp
  · intro x hx
    rw [handleUnenrollUpdate, filter_bne_eq_erase_of_count_one uid _ honce]
    exact List.count_erase_of_ne hx _

/-- Witness for the amended C3 on a one-course store where user 5 is
enrolled exactly once. -/
theorem unenroll_removes_single_occurrence_witness :
    ∃ newList,
      handleUnenrollClick [⟨1, ⟨"T", "D", "C", some 10, some 3, [4, 5, 6]⟩⟩] 1 5 =
        some newList ∧
      newList = ([4, 5, 6] : List Nat).erase 5 ∧
      newList.count 5 = ([4, 5, 6] : List Nat).count 5 - 1 ∧
      ∀ x, x ≠ 5 → newList.count x = ([4, 5, 6] : List Nat).count x :=
  unenroll_removes_single_occurrence
    [⟨1, ⟨"T", "D", "C", some 10, some 3, [4, 5, 6]⟩⟩] 1 5
    ⟨1, ⟨"T", "D", "C", some 10, some 3, [4, 5, 6]⟩⟩ (by decide) (by decide)

/-- Outcome of one fetch of a view file: the promise rejects (network
error), or resolves to a response with an ok flag and a body text. -/
inductive FetchResult where
  | rejected
  | resp (ok : Bool) (text : String)
deriving DecidableEq, Repr

/-- Whether a fetch produced a response with a success status. -/
def fetchOk : FetchResult → Bool
  | FetchResult.resp true _ => true
  | _ => false

/-- The view file the loadView fallback fetches, routes at /404. -/
def notFoundViewPath : String := "src/views/404.html"

/-- loadView of router.js over a fetch environment: fetch the view
file; on a success response inject its text into the app root. On a
rejected fetch or a non-success status, control enters the catch block,
which fetches the 404 view file and injects whatever text comes back
without checking its status. The fallback fetch itself is not guarded:
if it rejects, the await inside the catch block throws, the rejection
escapes loadView, and nothing is written into the app root — modelled
as none. some t models the app root being set to t. -/
def loadView (env : String → FetchResult) (viewPath : String) : Option String :=
  match env viewPath with
  | FetchResult.resp true html => some html
  | _ =>
    match env notFoundViewPath with
    | FetchResult.rejected => none
    | FetchResult.resp _ text => some text

/-- Counterexample to C6: when every fetch rejects, loading the login
view writes nothing into the mount node — the fallback fetch fails and
the rejection escapes, so the mount node can be left empty after the
dispatch, contrary to the claimed guarantee. -/
theorem loadView_can_leave_mount_empty :
    loadView (fun _ => FetchResult.rejected) "src/views/login.html" = none := by
  rfl

/-- C6 as amended: after a failed primary fetch the loader renders the
text of the 404 view response whenever that fallback fetch returns any
response at all (even a non-success one); the mount node is left
unwritten exactly when the primary fetch fails and the fallback fetch
itself rejects, in which case the failure escapes the loader. -/
theorem loadView_fallback_characterisation (env : String → FetchResult) (viewPath : String) :
    (loadView env viewPath = none ↔
      (fetchOk (env viewPath) = false ∧ env notFoundViewPath = FetchResult.rejected)) ∧
    (∀ html, env viewPath = FetchResult.resp true html → loadView env viewPath = some html) ∧
    (∀ ok text, fetchOk (env viewPath) = false → env notFoundViewPath = FetchResult.resp ok text →
      loadView env viewPath = some text) := by
  refine ⟨?_, ?_, ?_⟩
  · cases hv : env viewPath with
    | rejected =>
      cases hn : env notFoundViewPath with
      | rejected => simp [loadView, fetchOk, hv, hn]
      | resp ok text => simp [loadView, fetchOk, hv, hn]
    | resp ok text =>
      cases ok with
      | true => simp [loadView, fetchOk, hv]
      | false =>
        cases hn : env notFoundViewPath with
        | rejected => simp [loadView, fetchOk, hv, hn]
        | resp ok2 text2 => simp [loadView, fetchOk, hv, hn]
  · intro html hv
    simp [loadView, hv]
  · intro ok text hfail hn
    cases hv : env viewPath with
    | rejected => simp [loadView, hv, hn]
    | resp ok2 text2 =>
      cases ok2 with
      | true => rw [hv] at hfail; simp [fetchOk] at hfail
      | false => simp [loadView, hv, hn]

/-- Witness for the amended C6 in an environment where the login view
fetch rejects but the 404 view fetch responds. -/
theorem loadView_fallback_characterisation_witness :
    loadView
        (fun p => if p = notFoundViewPath then FetchResult.resp true "notfound" else FetchResult.rejected)
        "src/views/login.html" = some "notfound" :=
  (loadView_fallback_characterisation
      (fun p => if p = notFoundViewPath then FetchResult.resp true "notfound" else FetchResult.rejected)
      "src/views/login.html").2.2 true "notfound" (by decide) (by decide)

/-- C7: creating a course built by the Course constructor from the
admin-form field values and then re-fetching the course list yields a
stored entry whose title, description and category are the given
strings, whose capacity and instructorId are the parsed numbers, and
whose enrolledStudents list is empty — provided both requests reach the
store. -/
theorem create_course_roundtrip (serverOk1 serverOk2 : Bool) (store : List StoredCourse)
    (freshId : Nat) (title description category capacity instructorId : String)
    (h1 : serverOk1 = true) (h2 : serverOk2 = true) :
    ∃ e ∈ getAllCourses serverOk2
        (createCourse serverOk1 store freshId
          (Course.make title description category capacity instructorId)).1,
      e.data.title = title ∧
      e.data.description = description ∧
      e.data.category = category ∧
      e.data.capacity = parseIntJS capacity ∧
      e.data.instructorId = parseIntJS instructorId ∧
      e.data.enrolledStudents = [] := by
  subst h1; subst h2
  refine ⟨⟨freshId, Course.make title description category capacity instructorId⟩, ?_, ?_⟩
  · simp [getAllCourses, createCourse]
  · simp [Course.make]

/-- Witness for C7 on an empty store with concrete form values. -/
theorem create_course_roundtrip_witness :
    ∃ e ∈ getAllCourses true
        (createCourse true [] 1 (Course.make "Algebra" "Desc" "Math" "30" "5")).1,
      e.data.title = "Algebra" ∧
      e.data.description = "Desc" ∧
      e.data.category = "Math" ∧
      e.data.capacity = parseIntJS "30" ∧
      e.data.instructorId = parseIntJS "5" ∧
      e.data.enrolledStudents = [] :=
  create_course_roundtrip true true [] 1 "Algebra" "Desc" "Math" "30" "5" rfl rfl

/-- renderAvailableCourses in router.js: the student is enrolled when
the enrolledStudents list includes the current user id. -/
def isEnrolled (c : CourseData) (uid : Nat) : Bool :=
  c.enrolledStudents.contains uid

/-- renderAvailableCourses in router.js: the course has capacity when
the length of enrolledStudents is strictly below capacity. A NaN
capacity (none) compares as false, as every numeric comparison with
NaN does. -/
def hasCapacity (c : CourseData) : Bool :=
  match c.capacity with
  | some cap => c.enrolledStudents.length < cap
  | none => false

/-- The disabled attribute of the enroll button rendered by
renderAvailableCourses: present when the student is enrolled or the
course lacks capacity. -/
def enrollButtonDisabled (c : CourseData) (uid : Nat) : Bool :=
  isEnrolled c uid || !hasCapacity c

/-- The label of the enroll button rendered by renderAvailableCourses. -/
def enrollButtonLabel (c : CourseData) (uid : Nat) : String :=
  if isEnrolled c uid then "Already Enrolled"
  else if hasCapacity c then "Enroll" else "Full"

/-- C8: the enroll button is enabled exactly when the current user id
is absent from enrolledStudents and the enrollment count is below
capacity; its label is Already Enrolled when the user is enrolled,
Enroll when enrollment is possible, and Full when the course is at
capacity and the user is not enrolled. -/
theorem enroll_button_state (c : CourseData) (uid cap : Nat)
    (hcap : c.capacity = some cap) :
    (enrollButtonDisabled c uid = false ↔
      (uid ∉ c.enrolledStudents ∧ c.enrolledStudents.length < cap)) ∧
    (uid ∈ c.enrolledStudents → enrollButtonLabel c uid = "Already Enrolled") ∧
    (uid ∉ c.enrolledStudents → c.enrolledStudents.length < cap →
      enrollButtonLabel c uid = "Enroll") ∧
    (uid ∉ c.enrolledStudents → ¬ c.enrolledStudents.length < cap →
      enrollButtonLabel c uid = "Full") := by
  refine ⟨?_, ?_, ?_, ?_⟩
  · simp [enrollButtonDisabled, isEnrolled, hasCapacity, hcap, List.elem_iff]
  · intro hmem
    simp [enrollButtonLabel, isEnrolled, List.elem_iff, hmem]
  · intro hmem hlt
    simp [enrollButtonLabel, isEnrolled, hasCapacity, hcap, List.elem_iff, hmem, hlt]
  · intro hmem hge
    simp [enrollButtonLabel, isEnrolled, hasCapacity, hcap, List.elem_iff, hmem, hge]

/-- Witness for C8 on a full course not containing user 7: the button
is disabled and labelled Full. -/
theorem enroll_button_state_witness :
    (enrollButtonDisabled ⟨"T", "D", "C", some 2, some 3, [4, 5]⟩ 7 = false ↔
      (7 ∉ ([4, 5] : List Nat) ∧ ([4, 5] : List Nat).length < 2)) ∧
    (7 ∈ ([4, 5] : List Nat) →
      enrollButtonLabel ⟨"T", "D", "C", some 2, some 3, [4, 5]⟩ 7 = "Already Enrolled") ∧
    (7 ∉ ([4, 5] : List Nat) → ([4, 5] : List Nat).length < 2 →
      enrollButtonLabel ⟨"T", "D", "C", some 2, some 3, [4, 5]⟩ 7 = "Enroll") ∧
    (7 ∉ ([4, 5] : List Nat) → ¬ ([4, 5] : List Nat).length < 2 →
      enrollButtonLabel ⟨"T", "D", "C", some 2, some 3, [4, 5]⟩ 7 = "Full") :=
  enroll_button_state ⟨"T", "D", "C", some 2, some 3, [4, 5]⟩ 7 2 rfl

/-- A user record as stored by the users endpoint: credentials plus
role and the server-assigned id. -/
structure StoredUser where
  id : Nat
  email : String
  password : String
  role : String
deriving DecidableEq, Repr

/-- Outcome of the filtered users fetch issued by handleLogin: the
promise rejects, the response has a non-success status (the thrown
error lands in the catch block), or the response parses to the list of
matching user records. -/
inductive UsersFetchResult where
  | rejected
  | notOk
  | ok (users : List StoredUser)
deriving DecidableEq, Repr

/-- saveUserInfo of auth.js: the record written to localStorage keeps
id, email and role and drops the password. -/
def saveUserInfo (u : StoredUser) : Session :=
  ⟨u.id, u.email, u.role⟩

/-- handleLogin of authController.js over the outcome of the filtered
users query and the current localStorage session: when the query
returns exactly one user, save the session record and return true; on
zero or several matches, a non-success status or a rejected fetch,
return false and leave the storage untouched. The returned pair is the
boolean result and the storage after the call. -/
def handleLogin (resp : UsersFetchResult) (storage : Option Session) :
    Bool × Option Session :=
  match resp with
  | UsersFetchResult.ok users =>
    match users with
    | [u] => (true, some (saveUserInfo u))
    | _ => (false, storage)
  | _ => (false, storage)

/-- C9: handleLogin returns true and writes the session record exactly
when the filtered users query returns exactly one record; whenever it
returns false — zero or several matches, or a failed fetch — the
session storage is left unchanged. -/
theorem handleLogin_spec (resp : UsersFetchResult) (storage : Option Session) :
    ((handleLogin resp storage).1 = true ↔ ∃ u, resp = UsersFetchResult.ok [u]) ∧
    (∀ u, resp = UsersFetchResult.ok [u] →
      (handleLogin resp storage).2 = some (saveUserInfo u)) ∧
    ((handleLogin resp storage).1 = false → (handleLogin resp storage).2 = storage) := by
  refine ⟨?_, ?_, ?_⟩
  · cases resp with
    | rejected => simp [handleLogin]
    | notOk => simp [handleLogin]
    | ok users =>
      cases users with
      | nil => simp [handleLogin]
      | cons u t =>
        cases t with
        | nil => simp [handleLogin]
        | cons v t2 => simp [handleLogin]
  · rintro u rfl
    simp [handleLogin]
  · cases resp with
    | rejected => simp [handleLogin]
    | notOk => simp [handleLogin]
    | ok users =>
      cases users with
      | nil => simp [handleLogin]
      | cons u t =>
        cases t with
        | nil => simp [handleLogin]
        | cons v t2 => simp [handleLogin]

/-- Witness for C9 at a one-user query result and at a failed fetch. -/
theorem handleLogin_spec_witness :
    (handleLogin (UsersFetchResult.ok [⟨1, "admin@academy.com", "admin123", "administrator"⟩])
        none).1 = true ∧
    (handleLogin UsersFetchResult.rejected (some ⟨9, "x", "r"⟩)).2 = some ⟨9, "x", "r"⟩ :=
  ⟨(handleLogin_spec
      (UsersFetchResult.ok [⟨1, "admin@academy.com", "admin123", "administrator"⟩]) none).1.mpr
      ⟨⟨1, "admin@academy.com", "admin123", "administrator"⟩, rfl⟩,
   (handleLogin_spec UsersFetchResult.rejected (some ⟨9, "x", "r"⟩)).2.2 rfl⟩

/-- A PATCH request to the courses endpoint as issued by
enrollInCourse: the target URL and the replacement enrolledStudents
list carried in the body. -/
structure PatchRequest where
  url : String
  enrolledStudents : List Nat
deriving DecidableEq, Repr

/-- The base URL of the courses endpoint in courseController.js. -/
def COURSES_API_URL : String := "http://localhost:3000/courses"

/-- enrollInCourse of courseController.js over a store environment:
issue a PATCH to the course URL carrying the new student list as the
enrolledStudents body, returning the updated course echoed by the
store, or null (none) when the request fails. -/
def enrollInCourse (env : PatchRequest → Option CourseData) (courseId : String)
    (newStudentList : List Nat) : Option CourseData :=
  env ⟨COURSES_API_URL ++ "/" ++ courseId, newStudentList⟩

/-- unenrollFromCourse of courseController.js: forwards directly to
enrollInCourse with the same arguments. -/
def unenrollFromCourse (env : PatchRequest → Option CourseData) (courseId : String)
    (newStudentList : List Nat) : Option CourseData :=
  enrollInCourse env courseId newStudentList

/-- C10: for every store environment, course id and student list,
unenrollFromCourse issues exactly the operation enrollInCourse issues —
the identical PATCH replacing enrolledStudents — and returns the same
result. -/
theorem unenroll_equals_enroll (env : PatchRequest → Option CourseData)
    (courseId : String) (newStudentList : List Nat) :
    unenrollFromCourse env courseId newStudentList =
      enrollInCourse env courseId newStudentList := by
  rfl

end Spa
